import Mathlib

/-!
Shallow embedding of the remote-OCR parser slice of this repository:
the generic REST backend (`paperless_rest_ocr/parsers.py`) and the
provider-style remote backend (`paperless_remote/parsers.py`).

Python strings are modelled as Lean `String`, manipulated through their
character lists so that every operation is kernel-computable.  Machine
side effects (HTTP transport, backoff sleeps, payload construction, the
local PDF text-extraction utility) are made explicit: the transport is a
function from attempt number to a transport outcome, and each run
records the payload constructions and the attempt/sleep events it
performed, so that "no network call" and "exactly N attempts" are
properties of the recorded run.
-/

/-- Models Python `str.lower()` (restricted to the character-wise case
mapping; the configuration values involved are ASCII). -/
def pyLower (s : String) : String := ⟨s.data.map Char.toLower⟩

/-- Whitespace predicate of Python `str.strip()` (ASCII whitespace). -/
def pyIsSpace (c : Char) : Bool :=
  c = ' ' || c = '\t' || c = '\n' || c = '\r' || c = '\x0b' || c = '\x0c'

/-- Models Python `str.strip()`: drop leading and trailing whitespace. -/
def pyStrip (s : String) : String :=
  ⟨((s.data.dropWhile pyIsSpace).reverse.dropWhile pyIsSpace).reverse⟩

/-- Models Python string slicing `s[:n]`. -/
def pyTake (s : String) (n : Nat) : String := ⟨s.data.take n⟩

/-- Models the Python substring test `pat in s`. -/
def pyInStr (pat s : String) : Bool := decide (pat.data <:+: s.data)

/-- A single-quote character as a string (used by Python `repr`). -/
def pyQuote : String := "\u0027"

/-- The fragment of JSON values exchanged with the OCR services
(arrays do not occur in any modelled code path). -/
inductive Json where
  | jnull
  | jbool (b : Bool)
  | jnum (n : Int)
  | jstr (s : String)
  | jobj (fields : List (String × Json))

/-- Python `ParseError` (from `documents.parsers`): carries a message. -/
structure PError where
  msg : String
deriving DecidableEq, Repr

/-- Lookup in a Python dict of strings (first binding wins; the
modelled dicts have unique keys). -/
def strDictGet (d : List (String × String)) (k : String) : Option String :=
  (d.find? (fun p => p.1 == k)).map (fun p => p.2)

/-- Lookup in a Python dict of JSON values; models `d[k]` / `k in d`. -/
def jsonDictGet (d : List (String × Json)) (k : String) : Option Json :=
  (d.find? (fun p => p.1 == k)).map (fun p => p.2)

/-- Python dict assignment `d[k] = v`: overwrite in place if the key is
present (keeping its position), else append. -/
def dictInsert (d : List (String × String)) (k v : String) :
    List (String × String) :=
  if d.any (fun p => p.1 == k) then
    d.map (fun p => if p.1 == k then (k, v) else p)
  else
    d ++ [(k, v)]

/-- Python `d.update(new)`: assign every binding of `new` into `d`. -/
def dictUpdate (d new : List (String × String)) : List (String × String) :=
  new.foldl (fun acc p => dictInsert acc p.1 p.2) d

/-- UTF-8 encoding of a single code point (Python `str.encode()`). -/
def utf8CharBytes (n : Nat) : List Nat :=
  if n < 0x80 then [n]
  else if n < 0x800 then [0xC0 + n / 64, 0x80 + n % 64]
  else if n < 0x10000 then
    [0xE0 + n / 4096, 0x80 + (n / 64) % 64, 0x80 + n % 64]
  else
    [0xF0 + n / 262144, 0x80 + (n / 4096) % 64, 0x80 + (n / 64) % 64,
      0x80 + n % 64]

/-- UTF-8 bytes of a string (Python `str.encode()`). -/
def strBytes (s : String) : List Nat :=
  s.data.flatMap (fun c => utf8CharBytes c.toNat)

/-- The base64 alphabet (RFC 4648, as used by Python `base64.b64encode`). -/
def b64Alphabet : List Char :=
  "ABCDEFGHIJKLMNOPQRSTUVWXYZabcdefghijklmnopqrstuvwxyz0123456789+/".data

/-- Character of the base64 alphabet at a 6-bit index. -/
def b64Char (n : Nat) : Char := b64Alphabet.getD n 'A'

/-- Standard base64 of a byte list with `=` padding
(Python `base64.b64encode`). -/
def base64EncodeBytes : List Nat → String
  | [] => ""
  | [b1] =>
    ⟨[b64Char (b1 / 4), b64Char (b1 % 4 * 16), '=', '=']⟩
  | [b1, b2] =>
    ⟨[b64Char (b1 / 4), b64Char (b1 % 4 * 16 + b2 / 16),
      b64Char (b2 % 16 * 4), '=']⟩
  | b1 :: b2 :: b3 :: rest =>
    (⟨[b64Char (b1 / 4), b64Char (b1 % 4 * 16 + b2 / 16),
       b64Char (b2 % 16 * 4 + b3 / 64), b64Char (b3 % 64)]⟩ : String) ++
      base64EncodeBytes rest

/-- Python `base64.b64encode(s.encode()).decode("utf-8")`. -/
def pyB64OfStr (s : String) : String := base64EncodeBytes (strBytes s)

/-- Resolved configuration of the generic REST backend
(`RestOcrConfig`; the configuration loader itself lives outside this
slice, so the parser's `self.settings` is modelled as this record of the
fields the parser reads; Python falsy string values `None`/`""` are both
modelled as `""`). -/
structure RestOcrSettings where
  api_endpoint : String
  api_key : String
  auth_token : String
  auth_method : String
  timeout : Int
  retry_count : Int
  verify_ssl : Bool
  language : String
  custom_headers : List (String × String)

/-- Models `RestOcrDocumentParser.construct_request_payload`: the JSON body
with the base64-embedded document, MIME type, language hint and empty
options. -/
def construct_request_payload (s : RestOcrSettings) (documentBytes : List Nat)
    (mime_type : String) : List (String × Json) :=
  [("document", Json.jstr (base64EncodeBytes documentBytes)),
   ("mime_type", Json.jstr mime_type),
   ("language", Json.jstr s.language),
   ("options", Json.jobj [])]

/-- Models `RestOcrDocumentParser.construct_request_headers`: start from the
JSON content type, add at most one auth header chosen by the lowercased
auth method (each only when its credential is non-empty), then merge the
operator-configured custom headers last via dict update. -/
def construct_request_headers (s : RestOcrSettings) : List (String × String) :=
  dictUpdate
    (if pyLower s.auth_method == "bearer" && s.auth_token != "" then
      dictInsert [("Content-Type", "application/json")] "Authorization"
        ("Bearer " ++ s.auth_token)
    else if pyLower s.auth_method == "api_key" && s.api_key != "" then
      dictInsert [("Content-Type", "application/json")] "X-API-Key" s.api_key
    else if pyLower s.auth_method == "basic" && s.api_key != "" then
      dictInsert [("Content-Type", "application/json")] "Authorization"
        ("Basic " ++ pyB64OfStr (s.api_key ++ ":"))
    else [("Content-Type", "application/json")])
    s.custom_headers

/-- Python `repr` of a list of strings, as produced by
`list(response_data.keys())` inside an f-string. -/
def pyKeysRepr (ks : List String) : String :=
  "[" ++ String.intercalate ", " (ks.map (fun k => pyQuote ++ k ++ pyQuote))
    ++ "]"

/-- The message of the `ParseError` raised when no known key matches. -/
def noKeyMsg (d : List (String × Json)) : String :=
  "Could not extract text from REST OCR response. Response keys: " ++
    pyKeysRepr (d.map (fun p => p.1))

/-- Models `RestOcrDocumentParser.extract_text_from_response`: try the keys
`text`, `content`, `ocr_text`, `result` in order; for `result`, accept a
string directly or the `text` member of an object; otherwise raise a
`ParseError` listing the response keys. -/
def extract_text_from_response (d : List (String × Json)) :
    Except PError Json :=
  match jsonDictGet d "text" with
  | some v => .ok v
  | none =>
  match jsonDictGet d "content" with
  | some v => .ok v
  | none =>
  match jsonDictGet d "ocr_text" with
  | some v => .ok v
  | none =>
  match jsonDictGet d "result" with
  | some (Json.jstr r) => .ok (Json.jstr r)
  | some (Json.jobj fields) =>
    match jsonDictGet fields "text" with
    | some v => .ok v
    | none => .error ⟨noKeyMsg d⟩
  | some _ => .error ⟨noKeyMsg d⟩
  | none => .error ⟨noKeyMsg d⟩

/-- A successful HTTP response body, already past `raise_for_status`:
either a JSON object (`response.json()`) or, when JSON decoding fails,
the raw text (which the code wraps as `{"text": response.text}`). -/
inductive ApiResponse where
  | jsonResp (data : List (String × Json))
  | textResp (body : String)

/-- Outcome of one `requests.post` attempt: success, timeout
(`requests.exceptions.Timeout`), HTTP error status ≥ 400 raised by
`raise_for_status` (`requests.exceptions.HTTPError`, with the response
status and text), or any other `requests.exceptions.RequestException`
(connection/DNS failure) carrying its rendered message. -/
inductive TransportResult where
  | ok (resp : ApiResponse)
  | timeout
  | httpError (status : Int) (body : String)
  | transportError (m : String)

/-- Observable side effects of the retry loop: an HTTP POST for a given
attempt number, or a backoff sleep of a given duration in seconds. -/
inductive ReqEvent where
  | attemptEv (n : Int)
  | sleepEv (d : Int)
deriving DecidableEq, Repr

/-- The recorded run of `make_api_request`: how many request payloads
were constructed, the ordered attempt/sleep events, and the returned
response dict or raised `ParseError`. -/
structure RunOutcome where
  payloads : Nat
  events : List ReqEvent
  result : Except PError (List (String × Json))

/-- The `ParseError` message for an unconfigured endpoint. -/
def endpointMissingMsg : String :=
  "REST OCR endpoint is not configured. " ++
    "Set PAPERLESS_REST_OCR_ENDPOINT environment variable."

/-- The timeout warning prefix of the timeout branch. -/
def timeoutMsg (s : RestOcrSettings) : String :=
  "REST OCR request timed out after " ++ toString s.timeout ++ " seconds"

/-- The HTTP-error message: status code, then ` - ` and the first 200
characters of the response text when it is non-empty. -/
def httpErrMsg (status : Int) (body : String) : String :=
  "REST OCR API returned HTTP error: " ++ toString status ++
    (if body == "" then "" else " - " ++ pyTake body 200)

/-- Models `RestOcrDocumentParser.make_api_request`: raise if the endpoint is
unconfigured (before building any payload or posting anything);
otherwise build the payload and headers and POST.  On timeout or on a
non-HTTP request failure, retry after sleeping `attempt * 2` seconds
while `attempt < retry_count`, else raise with an
`All {attempt} attempts failed.` message; on an HTTP error retry (same
backoff) only while additionally the status is ≥ 500, else raise with
the HTTP-error message.  The transport is the recorded effect of
`requests.post` for each attempt number. -/
def make_api_request (s : RestOcrSettings) (transport : Int → TransportResult)
    (attempt : Int) : RunOutcome :=
  if s.api_endpoint == "" then
    ⟨0, [], .error ⟨endpointMissingMsg⟩⟩
  else
    match transport attempt with
    | .ok (.jsonResp data) =>
      ⟨1, [.attemptEv attempt], .ok data⟩
    | .ok (.textResp body) =>
      ⟨1, [.attemptEv attempt], .ok [("text", Json.jstr body)]⟩
    | .timeout =>
      if h : attempt < s.retry_count then
        let r := make_api_request s transport (attempt + 1)
        ⟨1 + r.payloads, .attemptEv attempt :: .sleepEv (attempt * 2) ::
          r.events, r.result⟩
      else
        ⟨1, [.attemptEv attempt], .error
          ⟨timeoutMsg s ++ ". All " ++ toString attempt ++
            " attempts failed."⟩⟩
    | .httpError status body =>
      if h : attempt < s.retry_count ∧ status ≥ 500 then
        let r := make_api_request s transport (attempt + 1)
        ⟨1 + r.payloads, .attemptEv attempt :: .sleepEv (attempt * 2) ::
          r.events, r.result⟩
      else
        ⟨1, [.attemptEv attempt], .error ⟨httpErrMsg status body⟩⟩
    | .transportError m =>
      if h : attempt < s.retry_count then
        let r := make_api_request s transport (attempt + 1)
        ⟨1 + r.payloads, .attemptEv attempt :: .sleepEv (attempt * 2) ::
          r.events, r.result⟩
      else
        ⟨1, [.attemptEv attempt], .error
          ⟨"REST OCR request failed: " ++ m ++ ". All " ++ toString attempt ++
            " attempts failed."⟩⟩
termination_by (s.retry_count - attempt).toNat
decreasing_by
  all_goals omega

/-- Python truthiness of a JSON value (`bool(x)`). -/
def pyTruthyJson : Json → Bool
  | Json.jnull => false
  | Json.jbool b => b
  | Json.jnum n => n != 0
  | Json.jstr s => s != ""
  | Json.jobj fields => !fields.isEmpty

/-- Result of `RestOcrDocumentParser.parse`: the stored `self.text` and
`self.archive_path` (the latter is set to `None` on every path). -/
structure RestParseResult where
  text : String
  archivePath : Option String
deriving DecidableEq, Repr

/-- Models `RestOcrDocumentParser.parse`: run the request, extract the text
value; a falsy or whitespace-only value stores `""`, a non-empty string
stores its stripped form; a truthy non-string value hits `.strip()` and
the resulting `AttributeError` is wrapped into the unexpected-error
`ParseError` (its Python-rendered exception text is elided here);
`archive_path` is set to `None` for every MIME type. -/
def rest_parse (s : RestOcrSettings) (transport : Int → TransportResult) :
    Except PError RestParseResult :=
  match (make_api_request s transport 1).result with
  | .error e => .error e
  | .ok data =>
    match extract_text_from_response data with
    | .error e => .error e
    | .ok (Json.jstr t) =>
      if pyStrip t == "" then .ok ⟨"", none⟩
      else .ok ⟨pyStrip t, none⟩
    | .ok v =>
      if pyTruthyJson v then
        .error ⟨"Unexpected error during REST OCR parsing: AttributeError"⟩
      else .ok ⟨"", none⟩

/-- Models `RemoteEngineConfig` of the provider-style backend: engine
identifier plus optional API key and endpoint. -/
structure RemoteEngineConfig where
  engine : String
  api_key : Option String
  endpoint : Option String

/-- Python truthiness of an optional string (`bool(x)`). -/
def pyTruthyOptStr : Option String → Bool
  | none => false
  | some s => s != ""

/-- Models `RemoteEngineConfig.engine_is_valid`: the engine is one of
`azureai` / `ocrbridge-ocrmac` and both the API key and the endpoint
are truthy. -/
def RemoteEngineConfig.engine_is_valid (c : RemoteEngineConfig) : Bool :=
  (c.engine == "azureai" || c.engine == "ocrbridge-ocrmac") &&
    pyTruthyOptStr c.api_key && pyTruthyOptStr c.endpoint

mutual

/-- Python `repr` of a JSON value (the fragment used here). -/
def pyJsonRepr : Json → String
  | Json.jnull => "None"
  | Json.jbool true => "True"
  | Json.jbool false => "False"
  | Json.jnum n => toString n
  | Json.jstr s => pyQuote ++ s ++ pyQuote
  | Json.jobj fields => "\x7b" ++ pyFieldsRepr fields ++ "\x7d"

/-- Python `repr` of the fields of a JSON object. -/
def pyFieldsRepr : List (String × Json) → String
  | [] => ""
  | [p] => pyQuote ++ p.1 ++ pyQuote ++ ": " ++ pyJsonRepr p.2
  | p :: q :: rest =>
    pyQuote ++ p.1 ++ pyQuote ++ ": " ++ pyJsonRepr p.2 ++ ", " ++
      pyFieldsRepr (q :: rest)

end

/-- Python `str()` of a JSON value as used in an f-string: a string is
used bare, anything else is rendered like its `repr`. -/
def pyJsonStr : Json → String
  | Json.jstr s => s
  | v => pyJsonRepr v

/-- The HTTP response received by the bridge-style backend, past the
`httpx` POST: its status code, the value of its `content-type` header
(absence modelled by the `headers.get` default `""`), and the JSON
decoding of its body when the body is valid JSON (used only to pull
`detail` / `error_code` out of error responses). -/
structure BridgeResponse where
  status : Int
  contentTypeHeader : String
  bodyJson : Option Json

/-- The `detail` / `error_code` field the error branch pulls from the
response payload: present only when the body parsed as a JSON object
that has the key. -/
def bridgePayloadGet (resp : BridgeResponse) (k : String) : Option Json :=
  match resp.bodyJson with
  | some (Json.jobj fields) => jsonDictGet fields k
  | _ => none

/-- The error message built for an HTTP error status: the status code,
then the truthy `detail` and `error_code` fields of the JSON body. -/
def bridgeHttpErrMsg (resp : BridgeResponse) : String :=
  let base := "OCRBridge OCRMac parsing failed: HTTP " ++ toString resp.status
  let withDetail :=
    match bridgePayloadGet resp "detail" with
    | some d => if pyTruthyJson d then base ++ " - " ++ pyJsonStr d else base
    | none => base
  match bridgePayloadGet resp "error_code" with
  | some c =>
    if pyTruthyJson c then
      withDetail ++ " (error_code: " ++ pyJsonStr c ++ ")"
    else withDetail
  | none => withDetail

/-- Models `RemoteDocumentParser.ocrbridge_ocrmac_parse`: POST the file to the
bridge endpoint; an HTTP error status (≥ 400, raised by
`raise_for_status`) becomes a `ParseError` with the status and any
`detail`/`error_code` of the body; otherwise the lowercased
`content-type` header must contain `application/pdf` or a `ParseError`
naming the offending content type is raised; the PDF bytes are then
written to the archive and handed to the local text-extraction utility
(an external collaborator, passed here as the `extracted` oracle); if it
yields `None`, a `ParseError` is raised, else its text is returned. -/
def ocrbridge_ocrmac_parse (resp : BridgeResponse)
    (extracted : Option String) : Except PError String :=
  if resp.status ≥ 400 then
    .error ⟨bridgeHttpErrMsg resp⟩
  else
    let content_type := pyLower resp.contentTypeHeader
    if !pyInStr "application/pdf" content_type then
      .error ⟨"OCRBridge OCRMac parsing failed: expected PDF response, got "
        ++ (if content_type == "" then "unknown content type"
            else content_type)⟩
    else
      match extracted with
      | none => .error ⟨"OCRBridge OCRMac parsing failed: " ++
          "unable to extract text from PDF response"⟩
      | some text => .ok text

/-- Models `RemoteDocumentParser.parse`: an invalid configuration stores empty
text and performs no network call; the `azureai` engine stores the
(possibly `None`) provider result; the `ocrbridge-ocrmac` engine stores
the bridge result or propagates its `ParseError`.  The provider calls
are passed in as oracles; the returned flag records whether a network
path was entered. -/
def remote_parse (c : RemoteEngineConfig) (azureResult : Option String)
    (bridgeResult : Except PError String) :
    Bool × Except PError (Option String) :=
  if !c.engine_is_valid then
    (false, .ok (some ""))
  else if c.engine == "azureai" then
    (true, .ok azureResult)
  else if c.engine == "ocrbridge-ocrmac" then
    (true, bridgeResult.map some)
  else
    (false, .ok none)

/-- Whether a run event is a transport attempt. -/
def ReqEvent.isAttempt : ReqEvent → Bool
  | .attemptEv _ => true
  | .sleepEv _ => false

/-- Number of transport attempts recorded in a run. -/
def attemptsMade (r : RunOutcome) : Nat :=
  r.events.countP ReqEvent.isAttempt

/-- The alternating attempt/backoff event sequence that a retry loop
starting at attempt `a` and performing `k` retries produces. -/
def attemptTrace (a : Int) : Nat → List ReqEvent
  | 0 => [.attemptEv a]
  | k + 1 => .attemptEv a :: .sleepEv (a * 2) :: attemptTrace (a + 1) k

/-! ## Structural lemmas about the recorded retry traces -/

theorem attemptTrace_count (a : Int) (k : Nat) :
    (attemptTrace a k).countP ReqEvent.isAttempt = k + 1 := by
  induction k generalizing a with
  | zero => simp [attemptTrace, List.countP_cons, ReqEvent.isAttempt]
  | succ k ih =>
    simp [attemptTrace, List.countP_cons, ReqEvent.isAttempt, ih]

theorem attemptTrace_mem (a : Int) (k : Nat) (n : Int)
    (h : ReqEvent.attemptEv n ∈ attemptTrace a k) : a ≤ n ∧ n ≤ a + k := by
  induction k generalizing a with
  | zero =>
    simp [attemptTrace] at h
    omega
  | succ k ih =>
    simp [attemptTrace] at h
    rcases h with h | h
    · omega
    · have := ih (a + 1) h
      omega

theorem attemptTrace_get_zero (a : Int) (k : Nat) :
    (attemptTrace a k)[0]? = some (ReqEvent.attemptEv a) := by
  cases k <;> simp [attemptTrace]

theorem attemptTrace_sleep_next (a : Int) (k : Nat) (i : Nat) (d : Int)
    (h : (attemptTrace a k)[i]? = some (ReqEvent.sleepEv d)) :
    ∃ n, (attemptTrace a k)[i+1]? = some (ReqEvent.attemptEv n) ∧
      a < n ∧ d = (n - 1) * 2 := by
  induction k generalizing a i with
  | zero =>
    match i with
    | 0 => simp [attemptTrace] at h
    | i + 1 => simp [attemptTrace] at h
  | succ k ih =>
    match i with
    | 0 => simp [attemptTrace] at h
    | 1 =>
      simp [attemptTrace] at h
      refine ⟨a + 1, ?_, by omega, by omega⟩
      simp [attemptTrace, attemptTrace_get_zero]
    | i + 2 =>
      simp only [attemptTrace, List.getElem?_cons_succ] at h ⊢
      obtain ⟨n, hn, hlt, hd⟩ := ih (a + 1) i h
      exact ⟨n, hn, by omega, hd⟩

theorem attemptTrace_attempt_prev (a : Int) (k : Nat) (i : Nat) (n : Int)
    (h : (attemptTrace a k)[i]? = some (ReqEvent.attemptEv n)) :
    (i = 0 ∧ n = a) ∨
      (∃ j, i = j + 1 ∧
        (attemptTrace a k)[j]? = some (ReqEvent.sleepEv ((n - 1) * 2))) := by
  induction k generalizing a i with
  | zero =>
    match i with
    | 0 => simp [attemptTrace] at h; exact Or.inl ⟨rfl, h.symm⟩
    | i + 1 => simp [attemptTrace] at h
  | succ k ih =>
    match i with
    | 0 =>
      simp [attemptTrace] at h
      exact Or.inl ⟨rfl, h.symm⟩
    | 1 => simp [attemptTrace] at h
    | i + 2 =>
      simp only [attemptTrace, List.getElem?_cons_succ] at h
      rcases ih (a + 1) i h with ⟨hi, hn⟩ | ⟨j, hj, hget⟩
      · subst hi
        refine Or.inr ⟨1, rfl, ?_⟩
        simp [attemptTrace]
        omega
      · subst hj
        refine Or.inr ⟨j + 2, rfl, ?_⟩
        simpa [attemptTrace, List.getElem?_cons_succ] using hget
theorem endpoint_beq_false {s : RestOcrSettings} (he : s.api_endpoint ≠ "") :
    (s.api_endpoint == "") = false := beq_eq_false_iff_ne.mpr he

theorem make_events_shape (s : RestOcrSettings) (t : Int → TransportResult)
    (he : s.api_endpoint ≠ "") :
    ∀ (k : Nat) (a : Int), (s.retry_count - a).toNat = k →
      ∃ m, m ≤ k ∧ (make_api_request s t a).events = attemptTrace a m := by
  intro k
  induction k with
  | zero =>
    intro a hk
    have hlt : ¬ a < s.retry_count := by omega
    cases htta : t a with
    | ok resp =>
      rw [make_api_request]
      simp only [endpoint_beq_false he, Bool.false_eq_true, if_false, htta]
      cases resp <;> exact ⟨0, Nat.le_refl 0, rfl⟩
    | timeout =>
      rw [make_api_request]
      simp only [endpoint_beq_false he, Bool.false_eq_true, if_false, htta]
      rw [dif_neg hlt]
      exact ⟨0, Nat.le_refl 0, rfl⟩
    | httpError status body =>
      rw [make_api_request]
      simp only [endpoint_beq_false he, Bool.false_eq_true, if_false, htta]
      rw [dif_neg (fun hc => absurd hc.1 hlt)]
      exact ⟨0, Nat.le_refl 0, rfl⟩
    | transportError m =>
      rw [make_api_request]
      simp only [endpoint_beq_false he, Bool.false_eq_true, if_false, htta]
      rw [dif_neg hlt]
      exact ⟨0, Nat.le_refl 0, rfl⟩
  | succ k ih =>
    intro a hk
    cases htta : t a with
    | ok resp =>
      rw [make_api_request]
      simp only [endpoint_beq_false he, Bool.false_eq_true, if_false, htta]
      cases resp <;> exact ⟨0, Nat.zero_le _, rfl⟩
    | timeout =>
      rw [make_api_request]
      simp only [endpoint_beq_false he, Bool.false_eq_true, if_false, htta]
      by_cases hlt : a < s.retry_count
      · rw [dif_pos hlt]
        obtain ⟨m, hm, hev⟩ := ih (a + 1) (by omega)
        exact ⟨m + 1, by omega, by simp [attemptTrace, hev]⟩
      · rw [dif_neg hlt]
        exact ⟨0, Nat.zero_le _, rfl⟩
    | httpError status body =>
      rw [make_api_request]
      simp only [endpoint_beq_false he, Bool.false_eq_true, if_false, htta]
      by_cases hc : a < s.retry_count ∧ status ≥ 500
      · rw [dif_pos hc]
        obtain ⟨m, hm, hev⟩ := ih (a + 1) (by omega)
        exact ⟨m + 1, by omega, by simp [attemptTrace, hev]⟩
      · rw [dif_neg hc]
        exact ⟨0, Nat.zero_le _, rfl⟩
    | transportError m =>
      rw [make_api_request]
      simp only [endpoint_beq_false he, Bool.false_eq_true, if_false, htta]
      by_cases hlt : a < s.retry_count
      · rw [dif_pos hlt]
        obtain ⟨m', hm, hev⟩ := ih (a + 1) (by omega)
        exact ⟨m' + 1, by omega, by simp [attemptTrace, hev]⟩
      · rw [dif_neg hlt]
        exact ⟨0, Nat.zero_le _, rfl⟩

theorem make_timeout_exhaust (s : RestOcrSettings) (t : Int → TransportResult)
    (he : s.api_endpoint ≠ "") (ht : ∀ n, t n = TransportResult.timeout) :
    ∀ (k : Nat) (a : Int), (s.retry_count - a).toNat = k → a ≤ s.retry_count →
      (make_api_request s t a).events = attemptTrace a k ∧
      (make_api_request s t a).result = Except.error
        ⟨timeoutMsg s ++ ". All " ++ toString s.retry_count ++
          " attempts failed."⟩ := by
  intro k
  induction k with
  | zero =>
    intro a hk ha
    have haN : a = s.retry_count := by omega
    rw [make_api_request]
    simp only [endpoint_beq_false he, Bool.false_eq_true, if_false, ht]
    rw [dif_neg (by omega)]
    subst haN
    exact ⟨rfl, rfl⟩
  | succ k ih =>
    intro a hk ha
    have hlt : a < s.retry_count := by omega
    rw [make_api_request]
    simp only [endpoint_beq_false he, Bool.false_eq_true, if_false, ht]
    rw [dif_pos hlt]
    obtain ⟨hev, hres⟩ := ih (a + 1) (by omega) (by omega)
    exact ⟨by simp [attemptTrace, hev], by simpa using hres⟩

theorem make_transport_exhaust (s : RestOcrSettings)
    (t : Int → TransportResult) (m : String) (he : s.api_endpoint ≠ "")
    (ht : ∀ n, t n = TransportResult.transportError m) :
    ∀ (k : Nat) (a : Int), (s.retry_count - a).toNat = k → a ≤ s.retry_count →
      (make_api_request s t a).events = attemptTrace a k ∧
      (make_api_request s t a).result = Except.error
        ⟨"REST OCR request failed: " ++ m ++ ". All " ++
          toString s.retry_count ++ " attempts failed."⟩ := by
  intro k
  induction k with
  | zero =>
    intro a hk ha
    have haN : a = s.retry_count := by omega
    rw [make_api_request]
    simp only [endpoint_beq_false he, Bool.false_eq_true, if_false, ht]
    rw [dif_neg (by omega)]
    subst haN
    exact ⟨rfl, rfl⟩
  | succ k ih =>
    intro a hk ha
    have hlt : a < s.retry_count := by omega
    rw [make_api_request]
    simp only [endpoint_beq_false he, Bool.false_eq_true, if_false, ht]
    rw [dif_pos hlt]
    obtain ⟨hev, hres⟩ := ih (a + 1) (by omega) (by omega)
    exact ⟨by simp [attemptTrace, hev], by simpa using hres⟩

theorem make_server_error_exhaust (s : RestOcrSettings)
    (t : Int → TransportResult) (status : Int) (body : String)
    (he : s.api_endpoint ≠ "") (hst : 500 ≤ status)
    (ht : ∀ n, t n = TransportResult.httpError status body) :
    ∀ (k : Nat) (a : Int), (s.retry_count - a).toNat = k → a ≤ s.retry_count →
      (make_api_request s t a).events = attemptTrace a k ∧
      (make_api_request s t a).result = Except.error
        ⟨httpErrMsg status body⟩ := by
  intro k
  induction k with
  | zero =>
    intro a hk ha
    rw [make_api_request]
    simp only [endpoint_beq_false he, Bool.false_eq_true, if_false, ht]
    rw [dif_neg (fun hc => absurd hc.1 (by omega : ¬ a < s.retry_count))]
    exact ⟨rfl, rfl⟩
  | succ k ih =>
    intro a hk ha
    have hlt : a < s.retry_count := by omega
    rw [make_api_request]
    simp only [endpoint_beq_false he, Bool.false_eq_true, if_false, ht]
    rw [dif_pos ⟨hlt, hst⟩]
    obtain ⟨hev, hres⟩ := ih (a + 1) (by omega) (by omega)
    exact ⟨by simp [attemptTrace, hev], by simpa using hres⟩

/-! ## Lemmas about Python dict update semantics -/

theorem find?_map_congr {α : Type} (f : α → α) (p : α → Bool) (l : List α)
    (h1 : ∀ x, p (f x) = p x) (h2 : ∀ x, p x = true → f x = x) :
    (l.map f).find? p = l.find? p := by
  induction l with
  | nil => rfl
  | cons x xs ih =>
    by_cases hx : p x
    · rw [List.map_cons,
        List.find?_cons_of_pos _ (by rw [h1]; exact hx),
        List.find?_cons_of_pos _ hx, h2 x hx]
    · rw [List.map_cons,
        List.find?_cons_of_neg _ (by rw [h1]; exact hx),
        List.find?_cons_of_neg _ hx, ih]

theorem strDictGet_dictInsert_self (d : List (String × String))
    (k v : String) : strDictGet (dictInsert d k v) k = some v := by
  unfold dictInsert
  by_cases h : d.any (fun p => p.1 == k)
  · rw [if_pos h]
    induction d with
    | nil => simp at h
    | cons p rest ih =>
      by_cases hp : p.1 == k
      · rw [List.map_cons, if_pos hp]
        unfold strDictGet
        rw [List.find?_cons_of_pos _ (by simp)]
        rfl
      · simp only [List.any_cons, hp, Bool.false_or] at h
        rw [List.map_cons, if_neg hp]
        unfold strDictGet at ih ⊢
        rw [@List.find?_cons_of_neg _ (fun q : String × String => q.1 == k) _ _ hp]
        exact ih h
  · rw [if_neg h]
    have hnone : d.find? (fun p => p.1 == k) = none := by
      rw [List.find?_eq_none]
      intro p hp
      simp only [List.any_eq_true, not_exists, not_and] at h
      simpa using h p hp
    unfold strDictGet
    rw [List.find?_append, hnone]
    simp [List.find?_cons_of_pos _ (by simp : (((k, v) : String × String).1 == k) = true)]

theorem strDictGet_dictInsert_ne (d : List (String × String))
    (k1 v k2 : String) (hne : k1 ≠ k2) :
    strDictGet (dictInsert d k1 v) k2 = strDictGet d k2 := by
  unfold dictInsert
  by_cases h : d.any (fun p => p.1 == k1)
  · rw [if_pos h]
    unfold strDictGet
    rw [find?_map_congr]
    · intro x
      by_cases hx : x.1 == k1
      · have hx' : x.1 = k1 := by simpa using hx
        simp [hx, hx', beq_eq_false_iff_ne.mpr hne]
      · simp [hx]
    · intro x hx
      have hx' : x.1 = k2 := by simpa using hx
      have hfalse : (x.1 == k1) = false := by
        rw [beq_eq_false_iff_ne, hx']
        exact fun hc => hne hc.symm
      simp [hfalse]
  · rw [if_neg h]
    unfold strDictGet
    rw [List.find?_append]
    have hsingle : [((k1, v) : String × String)].find? (fun p => p.1 == k2)
        = none := by
      simp [beq_eq_false_iff_ne.mpr hne]
    rw [hsingle, Option.or_none]

theorem strDictGet_dictUpdate_not_mem (d new : List (String × String))
    (k : String) (h : k ∉ new.map Prod.fst) :
    strDictGet (dictUpdate d new) k = strDictGet d k := by
  induction new generalizing d with
  | nil => rfl
  | cons p rest ih =>
    simp only [List.map_cons, List.mem_cons, not_or] at h
    show strDictGet (dictUpdate (dictInsert d p.1 p.2) rest) k = _
    rw [ih _ h.2, strDictGet_dictInsert_ne _ _ _ _ (fun hc => h.1 hc.symm)]

theorem strDictGet_dictUpdate_mem (d new : List (String × String))
    (k v : String) (hnd : (new.map Prod.fst).Nodup) (hmem : (k, v) ∈ new) :
    strDictGet (dictUpdate d new) k = some v := by
  induction new generalizing d with
  | nil => cases hmem
  | cons p rest ih =>
    rw [List.map_cons, List.nodup_cons] at hnd
    rcases List.mem_cons.mp hmem with heq | hmem'
    · show strDictGet (dictUpdate (dictInsert d p.1 p.2) rest) k = some v
      have hk : k ∉ rest.map Prod.fst := by
        have : p.1 = k := by rw [← heq]
        rw [← this]
        exact hnd.1
      rw [strDictGet_dictUpdate_not_mem _ _ _ hk]
      have hp1 : p.1 = k := by rw [← heq]
      have hp2 : p.2 = v := by rw [← heq]
      rw [hp1, hp2]
      exact strDictGet_dictInsert_self d k v
    · show strDictGet (dictUpdate (dictInsert d p.1 p.2) rest) k = some v
      exact ih _ hnd.2 hmem'

/-! ## Claim theorems -/

/-- C1: for the generic REST backend, an empty configured endpoint makes
`make_api_request` (and hence `parse`) fail with the configuration
`ParseError` before any payload is built or any HTTP request is sent:
the recorded run has zero payload constructions and no transport or
sleep events, and the parse surfaces the same error. -/
theorem claimC1_empty_endpoint (s : RestOcrSettings)
    (t : Int → TransportResult) (he : s.api_endpoint = "") :
    make_api_request s t 1 =
      ⟨0, [], Except.error ⟨endpointMissingMsg⟩⟩ ∧
    rest_parse s t = Except.error ⟨endpointMissingMsg⟩ := by
  have h1 : make_api_request s t 1 =
      ⟨0, [], Except.error ⟨endpointMissingMsg⟩⟩ := by
    rw [make_api_request]
    simp [he]
  refine ⟨h1, ?_⟩
  unfold rest_parse
  rw [h1]

/-- Witness for C1 at a concrete unconfigured setting. -/
theorem claimC1_empty_endpoint_witness :
    make_api_request ⟨"", "key", "", "", 30, 3, true, "eng", []⟩
        (fun _ => TransportResult.timeout) 1 =
      ⟨0, [], Except.error ⟨endpointMissingMsg⟩⟩ ∧
    rest_parse ⟨"", "key", "", "", 30, 3, true, "eng", []⟩
        (fun _ => TransportResult.timeout) =
      Except.error ⟨endpointMissingMsg⟩ :=
  claimC1_empty_endpoint _ _ rfl

/-- C2: every invalid provider-style configuration (engine not
`azureai`/`ocrbridge-ocrmac`, or falsy api key, or falsy endpoint)
makes the remote `parse` store empty text and perform no network call,
for any behavior of the provider oracles. -/
theorem claimC2_invalid_remote_config (c : RemoteEngineConfig)
    (h : (c.engine ≠ "azureai" ∧ c.engine ≠ "ocrbridge-ocrmac") ∨
      pyTruthyOptStr c.api_key = false ∨ pyTruthyOptStr c.endpoint = false)
    (azureResult : Option String) (bridgeResult : Except PError String) :
    remote_parse c azureResult bridgeResult =
      (false, Except.ok (some "")) := by
  have hv : c.engine_is_valid = false := by
    unfold RemoteEngineConfig.engine_is_valid
    rcases h with ⟨h1, h2⟩ | h | h
    · rw [beq_eq_false_iff_ne.mpr h1, beq_eq_false_iff_ne.mpr h2]
      rfl
    · rw [h]
      simp
    · rw [h]
      simp
  unfold remote_parse
  rw [hv]
  rfl

/-- Witness for C2: unknown engine, empty api key, missing endpoint. -/
theorem claimC2_invalid_remote_config_witness :
    remote_parse ⟨"generic-rest", some "key", some "http://e"⟩ (some "t")
        (Except.ok "t") = (false, Except.ok (some "")) ∧
    remote_parse ⟨"azureai", some "", some "http://e"⟩ (some "t")
        (Except.ok "t") = (false, Except.ok (some "")) ∧
    remote_parse ⟨"ocrbridge-ocrmac", some "key", none⟩ (some "t")
        (Except.ok "t") = (false, Except.ok (some "")) :=
  ⟨claimC2_invalid_remote_config ⟨"generic-rest", some "key", some "http://e"⟩
     (Or.inl ⟨by decide, by decide⟩) _ _,
   claimC2_invalid_remote_config ⟨"azureai", some "", some "http://e"⟩
     (Or.inr (Or.inl (by decide))) _ _,
   claimC2_invalid_remote_config ⟨"ocrbridge-ocrmac", some "key", none⟩
     (Or.inr (Or.inr (by decide))) _ _⟩

/-- C4: an HTTP error response with a 4xx status makes `make_api_request`
perform exactly one transport attempt — no backoff sleep, no retry,
whatever the configured retry count — and raise the terminal HTTP-error
`ParseError`. -/
theorem claimC4_client_error_one_attempt (s : RestOcrSettings)
    (t : Int → TransportResult) (status : Int) (body : String)
    (he : s.api_endpoint ≠ "") (h4 : 400 ≤ status) (h5 : status ≤ 499)
    (ht : t 1 = TransportResult.httpError status body) :
    make_api_request s t 1 =
      ⟨1, [ReqEvent.attemptEv 1], Except.error ⟨httpErrMsg status body⟩⟩ := by
  rw [make_api_request]
  simp only [endpoint_beq_false he, Bool.false_eq_true, if_false, ht]
  rw [dif_neg (fun hc => by omega)]

/-- Witness for C4: a 404 with a large retry budget still does one
attempt. -/
theorem claimC4_client_error_one_attempt_witness :
    make_api_request ⟨"http://ocr.example", "key", "", "", 30, 5, true,
        "eng", []⟩ (fun _ => TransportResult.httpError 404 "Bad Request") 1 =
      ⟨1, [ReqEvent.attemptEv 1],
        Except.error ⟨httpErrMsg 404 "Bad Request"⟩⟩ :=
  claimC4_client_error_one_attempt _ _ 404 "Bad Request" (by decide)
    (by decide) (by decide) rfl

/-- C3 counterexample: with retry count 2 and a transport failing every
attempt with HTTP 500 (a retryable ServerError), exactly 2 attempts are
performed but the final message is the HTTP-error message, which does
not contain "All 2 attempts failed" — contradicting the claim for the
ServerError kind. -/
theorem claimC3_counterexample :
    attemptsMade (make_api_request ⟨"http://ocr.example", "", "", "", 30, 2,
        true, "eng", []⟩ (fun _ => TransportResult.httpError 500 "") 1) = 2 ∧
    (make_api_request ⟨"http://ocr.example", "", "", "", 30, 2, true, "eng",
        []⟩ (fun _ => TransportResult.httpError 500 "") 1).result =
      Except.error ⟨"REST OCR API returned HTTP error: 500"⟩ ∧
    pyInStr "All 2 attempts failed"
      "REST OCR API returned HTTP error: 500" = false := by
  refine ⟨?_, ?_, by decide⟩
  · simp [make_api_request, attemptsMade, ReqEvent.isAttempt]
  · simp [make_api_request]
    decide

/-- C3 (amended): with retry count N ≥ 1 and a transport failing every
attempt with a retryable kind, `make_api_request` performs exactly N
attempts; the final message contains "All N attempts failed" for the
Timeout and TransportError kinds, while for a ServerError (status ≥ 500)
the final message is the HTTP-error message carrying the status code,
without the attempt count. -/
theorem claimC3_retry_exhaustion (s : RestOcrSettings)
    (he : s.api_endpoint ≠ "") (hN : 1 ≤ s.retry_count) :
    (∀ t, (∀ n, t n = TransportResult.timeout) →
      attemptsMade (make_api_request s t 1) = s.retry_count.toNat ∧
      (make_api_request s t 1).result = Except.error
        ⟨timeoutMsg s ++ ". All " ++ toString s.retry_count ++
          " attempts failed."⟩) ∧
    (∀ t m, (∀ n, t n = TransportResult.transportError m) →
      attemptsMade (make_api_request s t 1) = s.retry_count.toNat ∧
      (make_api_request s t 1).result = Except.error
        ⟨"REST OCR request failed: " ++ m ++ ". All " ++
          toString s.retry_count ++ " attempts failed."⟩) ∧
    (∀ t status body, 500 ≤ status →
      (∀ n, t n = TransportResult.httpError status body) →
      attemptsMade (make_api_request s t 1) = s.retry_count.toNat ∧
      (make_api_request s t 1).result = Except.error
        ⟨httpErrMsg status body⟩) := by
  refine ⟨?_, ?_, ?_⟩
  · intro t ht
    obtain ⟨hev, hres⟩ := make_timeout_exhaust s t he ht
      (s.retry_count - 1).toNat 1 rfl (by omega)
    refine ⟨?_, hres⟩
    rw [attemptsMade, hev, attemptTrace_count]
    omega
  · intro t m ht
    obtain ⟨hev, hres⟩ := make_transport_exhaust s t m he ht
      (s.retry_count - 1).toNat 1 rfl (by omega)
    refine ⟨?_, hres⟩
    rw [attemptsMade, hev, attemptTrace_count]
    omega
  · intro t status body hst ht
    obtain ⟨hev, hres⟩ := make_server_error_exhaust s t status body he hst ht
      (s.retry_count - 1).toNat 1 rfl (by omega)
    refine ⟨?_, hres⟩
    rw [attemptsMade, hev, attemptTrace_count]
    omega

/-- Witness for the amended C3 at retry count 3 with a timeout
transport. -/
theorem claimC3_retry_exhaustion_witness :
    attemptsMade (make_api_request ⟨"http://ocr.example", "", "", "", 30, 3,
        true, "eng", []⟩ (fun _ => TransportResult.timeout) 1) =
      (3 : Int).toNat ∧
    (make_api_request ⟨"http://ocr.example", "", "", "", 30, 3, true, "eng",
        []⟩ (fun _ => TransportResult.timeout) 1).result =
      Except.error ⟨timeoutMsg ⟨"http://ocr.example", "", "", "", 30, 3,
        true, "eng", []⟩ ++ ". All " ++ toString (3 : Int) ++
        " attempts failed."⟩ :=
  (claimC3_retry_exhaustion ⟨"http://ocr.example", "", "", "", 30, 3, true,
    "eng", []⟩ (by decide) (by decide)).1 _ (fun _ => rfl)

/-- C7 counterexample: with retry count 0 the loop still performs
attempt number 1, which exceeds the configured retry count — the claim
fails for N = 0. -/
theorem claimC7_counterexample :
    ReqEvent.attemptEv 1 ∈ (make_api_request ⟨"http://ocr.example", "", "",
        "", 30, 0, true, "eng", []⟩ (fun _ => TransportResult.timeout)
        1).events ∧
    ¬ ((1 : Int) ≤ (⟨"http://ocr.example", "", "", "", 30, 0, true, "eng",
        []⟩ : RestOcrSettings).retry_count) := by
  constructor
  · simp [make_api_request]
  · decide

/-- C7 (amended): every attempt number recorded by a run of the retry
loop started at attempt 1 is at most `max N 1`: the configured retry
count, except that one attempt is always performed even when N ≤ 0. -/
theorem claimC7_attempt_bound (s : RestOcrSettings)
    (t : Int → TransportResult) (he : s.api_endpoint ≠ "") (n : Int)
    (hmem : ReqEvent.attemptEv n ∈ (make_api_request s t 1).events) :
    n ≤ max s.retry_count 1 := by
  obtain ⟨m, hm, hev⟩ := make_events_shape s t he (s.retry_count - 1).toNat
    1 rfl
  rw [hev] at hmem
  have hb := attemptTrace_mem 1 m n hmem
  have hmi : (m : Int) ≤ ((s.retry_count - 1).toNat : Int) := by
    exact_mod_cast hm
  omega

/-- Witness for the amended C7: attempt 1 of a concrete run is within
the bound. -/
theorem claimC7_attempt_bound_witness :
    (1 : Int) ≤ max ((⟨"http://ocr.example", "", "", "", 30, 3, true, "eng",
      []⟩ : RestOcrSettings).retry_count) 1 :=
  claimC7_attempt_bound ⟨"http://ocr.example", "", "", "", 30, 3, true,
    "eng", []⟩ (fun _ => TransportResult.timeout) (by decide) 1
    (by simp [make_api_request])

/-- C8: in every run started at attempt 1 (with a configured endpoint),
each recorded backoff sleep is immediately followed by the attempt it
precedes and its duration is `(n - 1) * 2` for that attempt number
`n > 1`; conversely every attempt with number `n > 1` is immediately
preceded by that sleep; and no sleep is recorded before the first
attempt. -/
theorem claimC8_backoff_linear (s : RestOcrSettings)
    (t : Int → TransportResult) (he : s.api_endpoint ≠ "") :
    (∀ i d, (make_api_request s t 1).events[i]? =
        some (ReqEvent.sleepEv d) →
      ∃ n, (make_api_request s t 1).events[i + 1]? =
          some (ReqEvent.attemptEv n) ∧ 1 < n ∧ d = (n - 1) * 2) ∧
    (∀ i n, (make_api_request s t 1).events[i]? =
        some (ReqEvent.attemptEv n) → 1 < n →
      ∃ j, i = j + 1 ∧ (make_api_request s t 1).events[j]? =
        some (ReqEvent.sleepEv ((n - 1) * 2))) ∧
    (∀ d, (make_api_request s t 1).events[0]? ≠
      some (ReqEvent.sleepEv d)) := by
  obtain ⟨m, hm, hev⟩ := make_events_shape s t he (s.retry_count - 1).toNat
    1 rfl
  rw [hev]
  refine ⟨?_, ?_, ?_⟩
  · intro i d h
    obtain ⟨n, hn, hlt, hd⟩ := attemptTrace_sleep_next 1 m i d h
    exact ⟨n, hn, hlt, hd⟩
  · intro i n h h1
    rcases attemptTrace_attempt_prev 1 m i n h with ⟨hi, hn⟩ | ⟨j, hj, hg⟩
    · omega
    · exact ⟨j, hj, hg⟩
  · intro d h
    rw [attemptTrace_get_zero] at h
    simp at h

/-- Witness for C8: the first event of a concrete run is not a sleep. -/
theorem claimC8_backoff_linear_witness :
    (make_api_request ⟨"http://ocr.example", "", "", "", 30, 3, true,
        "eng", []⟩ (fun _ => TransportResult.timeout) 1).events[0]? ≠
      some (ReqEvent.sleepEv 0) :=
  (claimC8_backoff_linear ⟨"http://ocr.example", "", "", "", 30, 3, true,
    "eng", []⟩ (fun _ => TransportResult.timeout) (by decide)).2.2 0

theorem dictUpdate_nil (d : List (String × String)) : dictUpdate d [] = d :=
  rfl

theorem strDictGet_base_auth :
    strDictGet [("Content-Type", "application/json")] "Authorization" =
      none := by decide

theorem strDictGet_base_apikey :
    strDictGet [("Content-Type", "application/json")] "X-API-Key" =
      none := by decide

/-- C5: header construction adds at most one auth header, selected
exclusively by the lowercased auth method with its credential present
(`bearer`+token → only `Authorization: Bearer`, `api_key`+key → only
`X-API-Key`, `basic`+key → only `Authorization: Basic` of the base64 of
`key + ":"`); any other method or a missing credential adds no auth
header; and operator-configured custom headers are merged last,
overriding any auto-generated header of the same name, including
`Content-Type`. -/
theorem claimC5_auth_header_selection (s : RestOcrSettings) :
    (s.custom_headers = [] →
      ((pyLower s.auth_method = "bearer" → s.auth_token ≠ "" →
          strDictGet (construct_request_headers s) "Authorization" =
            some ("Bearer " ++ s.auth_token) ∧
          strDictGet (construct_request_headers s) "X-API-Key" = none) ∧
        (pyLower s.auth_method = "api_key" → s.api_key ≠ "" →
          strDictGet (construct_request_headers s) "X-API-Key" =
            some s.api_key ∧
          strDictGet (construct_request_headers s) "Authorization" =
            none) ∧
        (pyLower s.auth_method = "basic" → s.api_key ≠ "" →
          strDictGet (construct_request_headers s) "Authorization" =
            some ("Basic " ++ pyB64OfStr (s.api_key ++ ":")) ∧
          strDictGet (construct_request_headers s) "X-API-Key" = none) ∧
        (pyLower s.auth_method ≠ "bearer" →
          pyLower s.auth_method ≠ "api_key" →
          pyLower s.auth_method ≠ "basic" →
          strDictGet (construct_request_headers s) "Authorization" = none ∧
          strDictGet (construct_request_headers s) "X-API-Key" = none) ∧
        (pyLower s.auth_method = "bearer" → s.auth_token = "" →
          strDictGet (construct_request_headers s) "Authorization" = none ∧
          strDictGet (construct_request_headers s) "X-API-Key" = none) ∧
        ((pyLower s.auth_method = "api_key" ∨
            pyLower s.auth_method = "basic") → s.api_key = "" →
          strDictGet (construct_request_headers s) "Authorization" = none ∧
          strDictGet (construct_request_headers s) "X-API-Key" = none))) ∧
    ((s.custom_headers.map Prod.fst).Nodup →
      ∀ k v, (k, v) ∈ s.custom_headers →
        strDictGet (construct_request_headers s) k = some v) := by
  constructor
  · intro hcustom
    unfold construct_request_headers
    rw [hcustom, dictUpdate_nil]
    refine ⟨?_, ?_, ?_, ?_, ?_, ?_⟩
    · intro hm htok
      have hc1 : (pyLower s.auth_method == "bearer" &&
          s.auth_token != "") = true := by
        rw [hm]
        simpa [bne_iff_ne] using htok
      rw [if_pos hc1]
      exact ⟨strDictGet_dictInsert_self _ _ _, by
        rw [strDictGet_dictInsert_ne _ _ _ _ (by decide)]
        exact strDictGet_base_apikey⟩
    · intro hm hkey
      have hc1 : (pyLower s.auth_method == "bearer" &&
          s.auth_token != "") = false := by
        rw [hm]
        simp
      have hc2 : (pyLower s.auth_method == "api_key" &&
          s.api_key != "") = true := by
        rw [hm]
        simpa [bne_iff_ne] using hkey
      rw [if_neg (by simp [hc1]), if_pos hc2]
      exact ⟨strDictGet_dictInsert_self _ _ _, by
        rw [strDictGet_dictInsert_ne _ _ _ _ (by decide)]
        exact strDictGet_base_auth⟩
    · intro hm hkey
      have hc1 : (pyLower s.auth_method == "bearer" &&
          s.auth_token != "") = false := by
        rw [hm]
        simp
      have hc2 : (pyLower s.auth_method == "api_key" &&
          s.api_key != "") = false := by
        rw [hm]
        simp
      have hc3 : (pyLower s.auth_method == "basic" &&
          s.api_key != "") = true := by
        rw [hm]
        simpa [bne_iff_ne] using hkey
      rw [if_neg (by simp [hc1]), if_neg (by simp [hc2]), if_pos hc3]
      exact ⟨strDictGet_dictInsert_self _ _ _, by
        rw [strDictGet_dictInsert_ne _ _ _ _ (by decide)]
        exact strDictGet_base_apikey⟩
    · intro h1 h2 h3
      rw [if_neg (by simp [beq_eq_false_iff_ne.mpr h1]),
        if_neg (by simp [beq_eq_false_iff_ne.mpr h2]),
        if_neg (by simp [beq_eq_false_iff_ne.mpr h3])]
      exact ⟨strDictGet_base_auth, strDictGet_base_apikey⟩
    · intro hm htok
      have hc1 : (pyLower s.auth_method == "bearer" &&
          s.auth_token != "") = false := by
        rw [htok]
        simp
      have hc2 : (pyLower s.auth_method == "api_key") = false := by
        rw [hm]
        decide
      have hc3 : (pyLower s.auth_method == "basic") = false := by
        rw [hm]
        decide
      rw [if_neg (by simp [hc1]), if_neg (by simp [hc2]),
        if_neg (by simp [hc3])]
      exact ⟨strDictGet_base_auth, strDictGet_base_apikey⟩
    · intro hm hkey
      have hc2 : (pyLower s.auth_method == "api_key" &&
          s.api_key != "") = false := by
        rw [hkey]
        simp
      have hc3 : (pyLower s.auth_method == "basic" &&
          s.api_key != "") = false := by
        rw [hkey]
        simp
      have hc1 : (pyLower s.auth_method == "bearer") = false := by
        rcases hm with hm | hm <;> rw [hm] <;> decide
      rw [if_neg (by simp [hc1]), if_neg (by simp [hc2]),
        if_neg (by simp [hc3])]
      exact ⟨strDictGet_base_auth, strDictGet_base_apikey⟩
  · intro hnd k v hmem
    unfold construct_request_headers
    exact strDictGet_dictUpdate_mem _ _ _ _ hnd hmem

/-- Witness for C5: a bearer token yields exactly the bearer
`Authorization` header, and a custom `Content-Type` header overrides
the auto-generated one. -/
theorem claimC5_auth_header_selection_witness :
    strDictGet (construct_request_headers ⟨"http://e", "", "tok", "Bearer",
        30, 3, true, "eng", []⟩) "Authorization" =
      some ("Bearer " ++ "tok") ∧
    strDictGet (construct_request_headers ⟨"http://e", "k", "", "api_key",
        30, 3, true, "eng", [("Content-Type", "text/xml")]⟩)
        "Content-Type" = some "text/xml" :=
  ⟨(((claimC5_auth_header_selection ⟨"http://e", "", "tok", "Bearer", 30, 3,
      true, "eng", []⟩).1 rfl).1 (by decide) (by decide)).1,
   (claimC5_auth_header_selection ⟨"http://e", "k", "", "api_key", 30, 3,
      true, "eng", [("Content-Type", "text/xml")]⟩).2 (by decide) _ _
      (by decide)⟩

/-- C6: response-text extraction returns the value of the first matching
key in the case-sensitive order `text`, `content`, `ocr_text`, `result`
(for `result`: the value itself when it is a string, or its `text`
member when it is an object containing that key); when no lookup
matches, it raises the `ParseError` listing the response's top-level
keys. -/
theorem claimC6_response_lookup_order (d : List (String × Json)) :
    (∀ v, jsonDictGet d "text" = some v →
      extract_text_from_response d = Except.ok v) ∧
    (jsonDictGet d "text" = none →
      ∀ v, jsonDictGet d "content" = some v →
      extract_text_from_response d = Except.ok v) ∧
    (jsonDictGet d "text" = none → jsonDictGet d "content" = none →
      ∀ v, jsonDictGet d "ocr_text" = some v →
      extract_text_from_response d = Except.ok v) ∧
    (jsonDictGet d "text" = none → jsonDictGet d "content" = none →
      jsonDictGet d "ocr_text" = none →
      ∀ r, jsonDictGet d "result" = some (Json.jstr r) →
      extract_text_from_response d = Except.ok (Json.jstr r)) ∧
    (jsonDictGet d "text" = none → jsonDictGet d "content" = none →
      jsonDictGet d "ocr_text" = none →
      ∀ fields v, jsonDictGet d "result" = some (Json.jobj fields) →
      jsonDictGet fields "text" = some v →
      extract_text_from_response d = Except.ok v) ∧
    (jsonDictGet d "text" = none → jsonDictGet d "content" = none →
      jsonDictGet d "ocr_text" = none →
      (∀ r, jsonDictGet d "result" ≠ some (Json.jstr r)) →
      (∀ fields, jsonDictGet d "result" = some (Json.jobj fields) →
        jsonDictGet fields "text" = none) →
      extract_text_from_response d = Except.error ⟨noKeyMsg d⟩) := by
  refine ⟨?_, ?_, ?_, ?_, ?_, ?_⟩
  · intro v h
    unfold extract_text_from_response
    simp only [h]
  · intro h1 v h
    unfold extract_text_from_response
    simp only [h1, h]
  · intro h1 h2 v h
    unfold extract_text_from_response
    simp only [h1, h2, h]
  · intro h1 h2 h3 r h
    unfold extract_text_from_response
    simp only [h1, h2, h3, h]
  · intro h1 h2 h3 fields v h h4
    unfold extract_text_from_response
    simp only [h1, h2, h3, h, h4]
  · intro h1 h2 h3 hstr hobj
    unfold extract_text_from_response
    rcases hr : jsonDictGet d "result" with _ | j
    · simp only [h1, h2, h3, hr]
    · cases j with
      | jnull => simp only [h1, h2, h3, hr]
      | jbool b => simp only [h1, h2, h3, hr]
      | jnum n => simp only [h1, h2, h3, hr]
      | jstr r => exact absurd hr (hstr r)
      | jobj fields => simp only [h1, h2, h3, hr, hobj fields hr]

/-- Witness for C6 at a concrete response body holding a `text` key. -/
theorem claimC6_response_lookup_order_witness :
    extract_text_from_response [("text", Json.jstr "X"),
        ("metadata", Json.jobj [])] = Except.ok (Json.jstr "X") :=
  (claimC6_response_lookup_order [("text", Json.jstr "X"),
    ("metadata", Json.jobj [])]).1 (Json.jstr "X") rfl

/-- C9 counterexample: a 2xx bridge response whose content type merely
contains `application/pdf` as a substring — while not being the PDF
media type — is accepted, contradicting "succeeds only if its
content-type is exactly a PDF media type". -/
theorem claimC9_counterexample :
    ocrbridge_ocrmac_parse ⟨200, "text/html-application/pdf-like", none⟩
        (some "hello") = Except.ok "hello" ∧
    "text/html-application/pdf-like" ≠ "application/pdf" :=
  ⟨rfl, by decide⟩

/-- C9 (amended): for a 2xx bridge response, success requires the
lowercased content type to contain `application/pdf` as a substring;
otherwise a `ParseError` mentioning "expected PDF response" and carrying
the offending (lowercased, or "unknown") content type is raised; and
when the local text-extraction utility yields no text (`None`) from the
returned PDF bytes, a `ParseError` is raised. -/
theorem claimC9_bridge_pdf_check (resp : BridgeResponse)
    (extracted : Option String) (h2 : 200 ≤ resp.status)
    (h3 : resp.status ≤ 299) :
    (pyInStr "application/pdf" (pyLower resp.contentTypeHeader) = false →
      ocrbridge_ocrmac_parse resp extracted = Except.error
        ⟨"OCRBridge OCRMac parsing failed: expected PDF response, got " ++
          (if pyLower resp.contentTypeHeader == "" then
            "unknown content type"
          else pyLower resp.contentTypeHeader)⟩) ∧
    (pyInStr "application/pdf" (pyLower resp.contentTypeHeader) = true →
      extracted = none →
      ocrbridge_ocrmac_parse resp extracted = Except.error
        ⟨"OCRBridge OCRMac parsing failed: " ++
          "unable to extract text from PDF response"⟩) ∧
    (pyInStr "application/pdf" (pyLower resp.contentTypeHeader) = true →
      ∀ text, extracted = some text →
      ocrbridge_ocrmac_parse resp extracted = Except.ok text) := by
  have hst : ¬ resp.status ≥ 400 := by omega
  refine ⟨?_, ?_, ?_⟩
  · intro hct
    unfold ocrbridge_ocrmac_parse
    rw [if_neg hst]
    simp only [hct, Bool.not_false, if_pos]
  · intro hct hext
    unfold ocrbridge_ocrmac_parse
    rw [if_neg hst]
    simp only [hct, Bool.not_true, Bool.false_eq_true, if_false, hext]
  · intro hct text hext
    unfold ocrbridge_ocrmac_parse
    rw [if_neg hst]
    simp only [hct, Bool.not_true, Bool.false_eq_true, if_false, hext]

/-- Witness for the amended C9: a JSON content type is rejected with the
expected message, and a PDF one with no extractable text errors out. -/
theorem claimC9_bridge_pdf_check_witness :
    ocrbridge_ocrmac_parse ⟨200, "application/json", none⟩ (some "x") =
      Except.error
        ⟨"OCRBridge OCRMac parsing failed: expected PDF response, got " ++
          (if pyLower "application/json" == "" then "unknown content type"
          else pyLower "application/json")⟩ ∧
    ocrbridge_ocrmac_parse ⟨200, "application/pdf", none⟩ none =
      Except.error ⟨"OCRBridge OCRMac parsing failed: " ++
        "unable to extract text from PDF response"⟩ :=
  ⟨(claimC9_bridge_pdf_check ⟨200, "application/json", none⟩ (some "x")
      (by decide) (by decide)).1 (by decide),
   (claimC9_bridge_pdf_check ⟨200, "application/pdf", none⟩ none
      (by decide) (by decide)).2.1 (by decide) rfl⟩

/-- C10: when the request succeeds and the extracted value is a string,
the generic REST `parse` stores the whitespace-stripped text; an empty
or whitespace-only extraction stores the empty string and still
succeeds. -/
theorem claimC10_strip_and_empty_success (s : RestOcrSettings)
    (t : Int → TransportResult) (data : List (String × Json)) (v : String)
    (hreq : (make_api_request s t 1).result = Except.ok data)
    (hext : extract_text_from_response data = Except.ok (Json.jstr v)) :
    rest_parse s t = Except.ok ⟨pyStrip v, none⟩ ∧
    (pyStrip v = "" → rest_parse s t = Except.ok ⟨"", none⟩) := by
  have hbody : rest_parse s t =
      if pyStrip v == "" then Except.ok ⟨"", none⟩
      else Except.ok ⟨pyStrip v, none⟩ := by
    unfold rest_parse
    simp only [hreq, hext]
  constructor
  · rw [hbody]
    by_cases hv : (pyStrip v == "") = true
    · rw [if_pos hv]
      have hv' : pyStrip v = "" := by simpa using hv
      rw [hv']
    · rw [if_neg hv]
  · intro h0
    rw [hbody, if_pos (by simpa using h0)]

/-- Witness for C10: a padded extraction is stored stripped, and a
whitespace-only extraction is stored as the empty string. -/
theorem claimC10_strip_and_empty_success_witness :
    rest_parse ⟨"http://ocr.example", "", "", "", 30, 3, true, "eng", []⟩
        (fun _ => TransportResult.ok (ApiResponse.jsonResp
          [("text", Json.jstr "  hi  ")])) =
      Except.ok ⟨pyStrip "  hi  ", none⟩ ∧
    rest_parse ⟨"http://ocr.example", "", "", "", 30, 3, true, "eng", []⟩
        (fun _ => TransportResult.ok (ApiResponse.jsonResp
          [("text", Json.jstr "   ")])) = Except.ok ⟨"", none⟩ :=
  ⟨(claimC10_strip_and_empty_success _ _ [("text", Json.jstr "  hi  ")]
      "  hi  " (by simp [make_api_request]) rfl).1,
   (claimC10_strip_and_empty_success _ _ [("text", Json.jstr "   ")]
      "   " (by simp [make_api_request]) rfl).2 (by decide)⟩
